import Mathlib

/-
Shallow embedding of src/brusselator.py (the Brusselator reaction-diffusion
batch renderer) and proofs of the specification claims.

External libraries are modelled as parameters ("oracles"):
  * the py-pde solver (eq.solve + MemoryStorage) is a function from the
    initial state and the solve arguments to either a raised
    ValueError/RuntimeWarning or a list of (time, snapshot) pairs;
  * cv2.imread is a function from a file name to an optional decoded frame
    (None models an unreadable file);
  * matplotlib rendering is modelled as producing, per snapshot, the masked
    field data that the code passes to imshow (savefig itself is assumed to
    succeed; the code has no handling for a failing savefig).
Python floats are modelled as rationals extended with NaN and signed
infinities; machine rounding is not modelled, which is irrelevant for the
claims proved here (they are control-flow and exact-arithmetic claims).
-/

namespace Brusselator

/-! ### Python float values (finite, NaN, signed Inf) -/

inductive PyFloat where
  | fin : ℚ → PyFloat
  | nan : PyFloat
  | inf : Bool → PyFloat
deriving DecidableEq

def PyFloat.isNaN : PyFloat → Bool
  | .nan => true
  | _ => false

def PyFloat.isInf : PyFloat → Bool
  | .inf _ => true
  | _ => false

/-! ### Snapshots

A snapshot is one `storage` item produced by `eq.solve` with
`tracker=storage.tracker(interval=1)` (line 110): the data of the two fields
u and v, each a RESOLUTION x RESOLUTION array, modelled as rows of values. -/

structure SnapshotData where
  u : List (List PyFloat)
  v : List (List PyFloat)
deriving DecidableEq

/-- `np.isnan(state_data).any()` over both fields of a snapshot. -/
def anyNaN (s : SnapshotData) : Bool :=
  s.u.any (fun row => row.any PyFloat.isNaN) || s.v.any (fun row => row.any PyFloat.isNaN)

/-- `np.isinf(state_data).any()` over both fields of a snapshot. -/
def anyInf (s : SnapshotData) : Bool :=
  s.u.any (fun row => row.any PyFloat.isInf) || s.v.any (fun row => row.any PyFloat.isInf)

/-- Lines 53-58: `check_for_invalid_values` returns True iff the data
contains a NaN or an Inf (it also logs an error, which we do not model). -/
def check_for_invalid_values (s : SnapshotData) : Bool :=
  anyNaN s || anyInf s

/-! ### Modes and settings -/

/-- One entry of `settings["modes"]` (lines 67-73). Text fields are kept as
lists of character codes; they do not influence any claim. -/
structure Mode where
  title : List Nat
  a : ℚ
  b : ℚ
  d0 : ℚ
  d1 : ℚ
  filename : List Nat
  description : List Nat

/-- The settings document as read from settings.json (lines 183-196). -/
structure RawSettings where
  resolution : Nat
  frame_rate : ℚ
  t_max : ℚ
  dt : ℚ
  color_vmin : ℚ
  color_vmax : ℚ
  u_color : List Nat
  v_color : List Nat
  fixed_boundary : Bool
  zoom_factor : ℚ

/-- The derived upper-case keys that `main` adds to the settings dict
(lines 187-210) and that `process_mode` reads. -/
structure Settings where
  RESOLUTION : Nat
  FRAME_RATE : ℚ
  T_MAX : ℚ
  DT : ℚ
  COLOR_VMIN : ℚ
  COLOR_VMAX : ℚ
  U_COLOR : List Nat
  V_COLOR : List Nat
  FIXED_BOUNDARY : Bool
  ZOOM_FACTOR : ℚ

/-- Lines 186-210 of `main`: extraction of the constants from the raw
settings, including `DT = settings["dt"] / 100` (line 190). -/
def main_settings (r : RawSettings) : Settings :=
  { RESOLUTION := r.resolution
    FRAME_RATE := r.frame_rate
    T_MAX := r.t_max
    DT := r.dt / 100
    COLOR_VMIN := r.color_vmin
    COLOR_VMAX := r.color_vmax
    U_COLOR := r.u_color
    V_COLOR := r.v_color
    FIXED_BOUNDARY := r.fixed_boundary
    ZOOM_FACTOR := r.zoom_factor }

/-! ### Grid, mask and initial state -/

/-- A scalar field over the grid, indexed by (row, column). -/
abbrev FieldData := Nat → Nat → ℚ

/-- Line 86: `RADIUS = 1 / settings["ZOOM_FACTOR"]` (as a total rational
function; `process_mode` below guards the zero-divisor case, where Python
raises ZeroDivisionError). -/
def gridRadius (zoom : ℚ) : ℚ := 1 / zoom

/-- Lines 92-94: squared pixel distance of cell (i, j) from the grid center
`(shape[0] // 2, shape[1] // 2)`; entry (i, j) of the ogrid expression is
`(X - center[1])**2 + (Y - center[0])**2` before the square root. -/
def distSq (res : Nat) (i j : Nat) : ℚ :=
  ((j : ℚ) - ((res / 2 : Nat) : ℚ)) ^ 2 + ((i : ℚ) - ((res / 2 : Nat) : ℚ)) ^ 2

/-- Line 95: the threshold `RADIUS * (RESOLUTION / (2 * RADIUS))` of the
mask comparison. -/
def maskRadius (zoom : ℚ) (res : Nat) : ℚ :=
  gridRadius zoom * ((res : ℚ) / (2 * gridRadius zoom))

/-- Line 95: `circular_mask = dist_from_center <= threshold`.  The code
compares `sqrt(distSq)` with the threshold; since the threshold equals
`res / 2 >= 0` whenever the zoom factor is nonzero (`maskRadius_eq` below),
this is equivalent to the square-free comparison used here. -/
def circularMask (zoom : ℚ) (res : Nat) (i j : Nat) : Bool :=
  decide (distSq res i j ≤ (maskRadius zoom res) ^ 2)

/-- Line 89: `u = ScalarField(grid, a)` — u is uniformly `a`. -/
def u_init (mode : Mode) : FieldData := fun _ _ => mode.a

/-- Line 90: `v = b / a + 0.1 * ScalarField.random_normal(grid)`; the random
normal sample is the `noise` oracle.  Total rational function; the `a = 0`
case (Python ZeroDivisionError) is guarded in `process_mode`. -/
def v_init (mode : Mode) (noise : FieldData) : FieldData :=
  fun i j => mode.b / mode.a + (1 / 10) * noise i j

/-- Lines 97-99: when FIXED_BOUNDARY, both fields are zeroed outside the
circular mask (`u.data[~circular_mask] = 0`); otherwise left unchanged. -/
def applyBoundary (fb : Bool) (mask : Nat → Nat → Bool) (f : FieldData) : FieldData :=
  if fb then (fun i j => if mask i j then f i j else 0) else f

/-- Lines 89-101: the state `FieldCollection([u, v])` handed to the solver. -/
def initial_state (mode : Mode) (s : Settings) (noise : FieldData) : FieldData × FieldData :=
  let mask := circularMask s.ZOOM_FACTOR s.RESOLUTION
  (applyBoundary s.FIXED_BOUNDARY mask (u_init mode),
   applyBoundary s.FIXED_BOUNDARY mask (v_init mode noise))

/-! ### Frame file names

Line 148: `frame_path = frames_dir / f'frame_\x7bframe_idx:04d\x7d.png'`.
File names are modelled as lists of character codes. -/

/-- Width-k decimal digits of `n mod 10^k`, most significant first. -/
def padW : Nat → Nat → List Nat
  | 0, _ => []
  | k + 1, n => n / 10 ^ k :: padW k (n % 10 ^ k)

/-- Number of decimal digits of n (1 for n < 10). -/
def numDigits (n : Nat) : Nat :=
  if n < 10 then 1 else numDigits (n / 10) + 1
termination_by n
decreasing_by exact Nat.div_lt_self (by omega) (by norm_num)

/-- The decimal digits of n, most significant first. -/
def decDigits (n : Nat) : List Nat := padW (numDigits n) n

/-- Python `format(n, '04d')` as digit values: the decimal digits of n,
left-padded with zeros to at least width 4. -/
def format04d (n : Nat) : List Nat :=
  List.replicate (4 - (decDigits n).length) 0 ++ decDigits n

/-- Character codes of `"frame_"`. -/
def frameWord : List Nat := [102, 114, 97, 109, 101, 95]

/-- Character codes of `".png"`. -/
def pngExt : List Nat := [46, 112, 110, 103]

abbrev FrameName := List Nat

/-- Line 148 / line 162: the file name `frame_NNNN.png` for frame index n
(digit d has character code 48 + d). -/
def frameName (n : Nat) : FrameName :=
  frameWord ++ (format04d n).map (fun d => 48 + d) ++ pngExt

/-! ### Lexical order on file names (Python string comparison / sorted) -/

/-- Python string `<`: pointwise comparison of character codes, a proper
prefix being smaller. -/
def lexLt : List Nat → List Nat → Bool
  | _, [] => false
  | [], _ :: _ => true
  | a :: as, b :: bs => if a < b then true else if a = b then lexLt as bs else false

/-- The non-strict order used to model Python `sorted`. -/
def lexLeR (x y : List Nat) : Prop := lexLt y x = false

instance : DecidableRel lexLeR := fun x y => by unfold lexLeR; infer_instance

/-- Line 170: Python `sorted` on file names (a stable sort by `lexLeR`). -/
def pySorted (l : List (List Nat)) : List (List Nat) :=
  List.insertionSort lexLeR l

/-! ### Rendering (lines 122-151)

Per snapshot, the code builds `np.ma.masked_where(~circular_mask, data)` for
each field (lines 125-126) and draws those through imshow; the rendered
content is modelled as the two masked arrays (`none` = masked out of the
color mapping). -/

abbrev FrameImage := (Nat → Nat → Option PyFloat) × (Nat → Nat → Option PyFloat)

def getCell (rows : List (List PyFloat)) (i j : Nat) : PyFloat :=
  (rows.getD i []).getD j (PyFloat.fin 0)

/-- `np.ma.masked_where(~circular_mask, data)`: cell visible iff inside the
mask. -/
def maskedData (mask : Nat → Nat → Bool) (rows : List (List PyFloat)) :
    Nat → Nat → Option PyFloat :=
  fun i j => if mask i j then some (getCell rows i j) else none

/-- Lines 125-130: one rendered frame (the u layer and the v layer). -/
def renderFrame (mask : Nat → Nat → Bool) (s : SnapshotData) : FrameImage :=
  (maskedData mask s.u, maskedData mask s.v)

/-- Lines 122-151: `for frame_idx, (time, state) in enumerate(storage_dict)`,
each iteration saving `frame_{frame_idx:04d}.png` with the masked data. -/
def renderFrames (mask : Nat → Nat → Bool) (snaps : List (ℚ × SnapshotData)) :
    List (FrameName × FrameImage) :=
  snaps.enum.map (fun q => (frameName q.1, renderFrame mask q.2.2))

/-! ### Video encoding (lines 160-178) -/

/-- Lines 170-178: list the `.png` files, iterate them in sorted (lexical)
order, skip each file `cv2.imread` cannot read (warning + continue), and
write every readable one to the VideoWriter in order. -/
def encodeVideo {F : Type} (dirList : List FrameName) (readable : FrameName → Option F) :
    List F :=
  let files := pySorted (dirList.filter (fun f => pngExt.isSuffixOf f))
  files.foldl
    (fun out f =>
      match readable f with
      | none => out
      | some fr => out ++ [fr]) []

/-! ### process_mode (lines 66-179) -/

/-- Exceptions raised (and not caught) inside `process_mode`. -/
inductive PyError where
  | zeroDivision
  | firstFrameNotFound
deriving DecidableEq

/-- A ValueError or RuntimeWarning raised inside `eq.solve` — exactly the
exception types caught by the handler at line 115. -/
inductive SolveError where
  | valueErrorOrRuntimeWarning
deriving DecidableEq

/-- The arguments of the `eq.solve` call at line 110:
`t_range=T_MAX, dt=DT, tracker=storage.tracker(interval=1)`. -/
structure SolveArgs where
  t_range : ℚ
  dt : ℚ
  interval : ℚ
deriving DecidableEq

/-- Observable outcome of one `process_mode` call:
  * `solveArgs`  — the arguments `eq.solve` was invoked with (`none` if the
    solver was never reached);
  * `debugLogged` — the snapshot handed to `print_debug_info` (line 113);
  * `frames`     — the frame files written, in order, with their rendered
    content;
  * `video`      — the sequence of frames written into the video file
    (`none` if no video was produced);
  * `raised`     — the exception propagating out of `process_mode`. -/
structure ModeOutcome (F : Type) where
  solveArgs : Option SolveArgs
  debugLogged : Option (ℚ × SnapshotData)
  frames : List (FrameName × FrameImage)
  video : Option (List F)
  raised : Option PyError

/-- Lines 66-179.  Control flow, in source order:
  * line 86: `RADIUS = 1 / ZOOM_FACTOR` raises ZeroDivisionError on zoom 0;
  * line 90: `v = b / a + ...` raises ZeroDivisionError on `a = 0`;
  * line 110: `eq.solve(...)`; a ValueError/RuntimeWarning from it is caught
    at line 115, logged, and the mode returns with no output;
  * lines 111-114: scan of the snapshots; on the first one with invalid
    values, debug statistics are logged and a ValueError is raised, which the
    same handler catches — again no output;
  * lines 122-151: one frame file per snapshot, in order;
  * lines 162-164: if `frame_0000.png` cannot be read back, a ValueError
    ("First frame not found") propagates and no video is produced;
  * lines 168-178: otherwise the video is encoded from the directory. -/
def process_mode {F : Type} (mode : Mode) (s : Settings) (noise : FieldData)
    (solver : FieldData × FieldData → SolveArgs → Except SolveError (List (ℚ × SnapshotData)))
    (readable : FrameName → Option F) : ModeOutcome F :=
  if s.ZOOM_FACTOR = 0 then
    { solveArgs := none, debugLogged := none, frames := [], video := none,
      raised := some PyError.zeroDivision }
  else if mode.a = 0 then
    { solveArgs := none, debugLogged := none, frames := [], video := none,
      raised := some PyError.zeroDivision }
  else
    match solver (initial_state mode s noise)
        { t_range := s.T_MAX, dt := s.DT, interval := 1 } with
    | Except.error _ =>
        { solveArgs := some { t_range := s.T_MAX, dt := s.DT, interval := 1 },
          debugLogged := none, frames := [], video := none, raised := none }
    | Except.ok snaps =>
        match snaps.find? (fun q => check_for_invalid_values q.2) with
        | some p =>
            { solveArgs := some { t_range := s.T_MAX, dt := s.DT, interval := 1 },
              debugLogged := some p, frames := [], video := none, raised := none }
        | none =>
            match readable (frameName 0) with
            | none =>
                { solveArgs := some { t_range := s.T_MAX, dt := s.DT, interval := 1 },
                  debugLogged := none,
                  frames := renderFrames (circularMask s.ZOOM_FACTOR s.RESOLUTION) snaps,
                  video := none, raised := some PyError.firstFrameNotFound }
            | some _ =>
                { solveArgs := some { t_range := s.T_MAX, dt := s.DT, interval := 1 },
                  debugLogged := none,
                  frames := renderFrames (circularMask s.ZOOM_FACTOR s.RESOLUTION) snaps,
                  video := some (encodeVideo
                    ((renderFrames (circularMask s.ZOOM_FACTOR s.RESOLUTION) snaps).map
                      Prod.fst) readable),
                  raised := none }

/-! ### Run numbering in main (lines 217-220) -/

/-- Code of an ASCII decimal digit. -/
def isDigitCode (c : Nat) : Bool := decide (48 ≤ c) && decide (c ≤ 57)

/-- Python `str.isdigit` for a directory name: nonempty and all digits. -/
def name_isdigit (nm : List Nat) : Bool := !nm.isEmpty && nm.all isDigitCode

/-- Python `int(name)` for a digit string. -/
def parseName (nm : List Nat) : Nat :=
  nm.foldl (fun acc c => acc * 10 + (c - 48)) 0

/-- `str(n)`: the decimal representation of a run number. -/
def natToName (n : Nat) : List Nat := (decDigits n).map (fun d => 48 + d)

/-- Lines 217-218:
`render_numbers = [int(name) for name in os.listdir(results_dir) if name.isdigit()]`
`render_number = max(render_numbers, default=0) + 1`. -/
def render_number (names : List (List Nat)) : Nat :=
  ((names.filter name_isdigit).map parseName).foldl max 0 + 1

/-! ### Concrete fixtures used by the witness theorems -/

def testMode : Mode :=
  { title := [97], a := 1, b := 3, d0 := 1, d1 := 10, filename := [97], description := [97] }

def zeroAMode : Mode :=
  { title := [97], a := 0, b := 3, d0 := 1, d1 := 10, filename := [97], description := [97] }

def testSettings : Settings :=
  { RESOLUTION := 4, FRAME_RATE := 30, T_MAX := 20, DT := 1 / 100, COLOR_VMIN := 0,
    COLOR_VMAX := 5, U_COLOR := [97], V_COLOR := [97], FIXED_BOUNDARY := true,
    ZOOM_FACTOR := 2 }

def periodicSettings : Settings :=
  { RESOLUTION := 4, FRAME_RATE := 30, T_MAX := 20, DT := 1 / 100, COLOR_VMIN := 0,
    COLOR_VMAX := 5, U_COLOR := [97], V_COLOR := [97], FIXED_BOUNDARY := false,
    ZOOM_FACTOR := 2 }

def testRaw : RawSettings :=
  { resolution := 4, frame_rate := 30, t_max := 20, dt := 1, color_vmin := 0,
    color_vmax := 5, u_color := [97], v_color := [97], fixed_boundary := false,
    zoom_factor := 2 }

def zeroNoise : FieldData := fun _ _ => 0

def finSnap : SnapshotData := { u := [[PyFloat.fin 1]], v := [[PyFloat.fin 1]] }

def nanSnap : SnapshotData := { u := [[PyFloat.nan]], v := [[PyFloat.fin 1]] }

/-- A solver oracle producing one finite snapshot. -/
def okSolver : FieldData × FieldData → SolveArgs → Except SolveError (List (ℚ × SnapshotData)) :=
  fun _ _ => Except.ok [(0, finSnap)]

/-- A solver oracle whose snapshot blew up (contains a NaN). -/
def nanSolver : FieldData × FieldData → SolveArgs → Except SolveError (List (ℚ × SnapshotData)) :=
  fun _ _ => Except.ok [(0, nanSnap)]

/-- A solver oracle producing zero snapshots. -/
def emptySolver : FieldData × FieldData → SolveArgs → Except SolveError (List (ℚ × SnapshotData)) :=
  fun _ _ => Except.ok []

/-- A filesystem in which every file reads back fine. -/
def allReadable : FrameName → Option Nat := fun _ => some 0

/-- A filesystem in which no file can be read. -/
def noneReadable : FrameName → Option Nat := fun _ => none

/-! ## Lemmas about decimal formatting -/

theorem padW_length (k : Nat) : ∀ n, (padW k n).length = k := by
  induction k with
  | zero => intro n; rfl
  | succ k ih => intro n; simp [padW, ih]

theorem padW_digit_lt (k : Nat) : ∀ n, n < 10 ^ k → ∀ d ∈ padW k n, d < 10 := by
  induction k with
  | zero => intro n _ d hd; simp [padW] at hd
  | succ k ih =>
    intro n hn d hd
    rcases List.mem_cons.mp hd with rfl | hmem
    · rw [Nat.div_lt_iff_lt_mul (by positivity)]
      calc n < 10 ^ (k + 1) := hn
        _ = 10 * 10 ^ k := by ring
    · exact ih (n % 10 ^ k) (Nat.mod_lt _ (by positivity)) d hmem

theorem padW_zero_pad (L n : Nat) (h : n < 10 ^ L) :
    ∀ d, padW (L + d) n = List.replicate d 0 ++ padW L n := by
  intro d
  induction d with
  | zero => simp
  | succ d ih =>
    have hlt : n < 10 ^ (L + d) :=
      lt_of_lt_of_le h (Nat.pow_le_pow_right (by norm_num) (Nat.le_add_right L d))
    have h1 : n / 10 ^ (L + d) = 0 := Nat.div_eq_of_lt hlt
    have h2 : n % 10 ^ (L + d) = n := Nat.mod_eq_of_lt hlt
    rw [show L + (d + 1) = (L + d) + 1 from rfl, padW, h1, h2, ih]
    rfl

theorem numDigits_pos (n : Nat) : 1 ≤ numDigits n := by
  rw [numDigits]
  split <;> omega

theorem lt_pow_numDigits (n : Nat) : n < 10 ^ numDigits n := by
  induction n using Nat.strong_induction_on with
  | _ n ih =>
    rw [numDigits]
    split
    · simpa using (by omega : n < 10)
    · have hdiv := ih (n / 10) (Nat.div_lt_self (by omega) (by norm_num))
      rw [pow_succ]
      omega

theorem numDigits_le (n : Nat) : ∀ k, 1 ≤ k → n < 10 ^ k → numDigits n ≤ k := by
  induction n using Nat.strong_induction_on with
  | _ n ih =>
    intro k hk hn
    rw [numDigits]
    split
    · exact hk
    · rename_i hge
      cases k with
      | zero => omega
      | succ m =>
        have hm : 1 ≤ m := by
          by_contra hm0
          have : m = 0 := by omega
          subst this
          simp at hn
          omega
        have hdiv : n / 10 < 10 ^ m := by
          rw [Nat.div_lt_iff_lt_mul (by norm_num)]
          calc n < 10 ^ (m + 1) := hn
            _ = 10 ^ m * 10 := by ring
        have := ih (n / 10) (Nat.div_lt_self (by omega) (by norm_num)) m hm hdiv
        omega

theorem decDigits_length (n : Nat) : (decDigits n).length = numDigits n := by
  rw [decDigits, padW_length]

theorem format04d_eq_padW (n : Nat) (h : n < 10000) : format04d n = padW 4 n := by
  have hL : numDigits n ≤ 4 := numDigits_le n 4 (by norm_num) (by omega)
  have hpad := padW_zero_pad (numDigits n) n (lt_pow_numDigits n) (4 - numDigits n)
  have h4 : numDigits n + (4 - numDigits n) = 4 := by omega
  rw [h4] at hpad
  rw [format04d, decDigits_length, decDigits, hpad]

theorem parse_padW (k : Nat) : ∀ (n acc : Nat), n < 10 ^ k →
    List.foldl (fun acc c => acc * 10 + (c - 48)) acc ((padW k n).map (fun d => 48 + d))
      = acc * 10 ^ k + n := by
  induction k with
  | zero =>
    intro n acc hn
    rw [pow_zero] at hn ⊢
    simp [padW]
    omega
  | succ k ih =>
    intro n acc hn
    have hstep : 48 + n / 10 ^ k - 48 = n / 10 ^ k := Nat.add_sub_cancel_left 48 (n / 10 ^ k)
    rw [padW, List.map_cons, List.foldl_cons, hstep,
      ih (n % 10 ^ k) (acc * 10 + n / 10 ^ k) (Nat.mod_lt _ (by positivity))]
    have hdm := Nat.div_add_mod n (10 ^ k)
    calc (acc * 10 + n / 10 ^ k) * 10 ^ k + n % 10 ^ k
        = acc * (10 ^ k * 10) + (10 ^ k * (n / 10 ^ k) + n % 10 ^ k) := by ring
      _ = acc * 10 ^ (k + 1) + n := by rw [hdm, pow_succ]

theorem parse_natToName (n : Nat) : parseName (natToName n) = n := by
  rw [parseName, natToName, decDigits,
    parse_padW (numDigits n) n 0 (lt_pow_numDigits n)]
  simp

theorem natToName_isdigit (n : Nat) : name_isdigit (natToName n) = true := by
  rw [name_isdigit]
  have hne : natToName n ≠ [] := by
    intro h
    have hlen := congrArg List.length h
    rw [natToName, List.length_map, decDigits_length] at hlen
    simp at hlen
    have hpos := numDigits_pos n
    omega
  have hall : (natToName n).all isDigitCode = true := by
    rw [natToName, List.all_map, List.all_eq_true]
    intro d hd
    have hlt := padW_digit_lt (numDigits n) n (lt_pow_numDigits n) d (by rwa [decDigits] at hd)
    simp only [Function.comp_apply, isDigitCode, Bool.and_eq_true, decide_eq_true_eq]
    omega
  rw [hall]
  simp [hne]

/-! ## Lemmas about lexical order -/

theorem lexLt_append_same (p : List Nat) : ∀ s t, lexLt (p ++ s) (p ++ t) = lexLt s t := by
  induction p with
  | nil => intro s t; rfl
  | cons a as ih => intro s t; simp [lexLt, ih]

theorem lexLt_irrefl (a : List Nat) : lexLt a a = false := by
  induction a with
  | nil => rfl
  | cons x xs ih => simp [lexLt, ih]

theorem lexLt_trans : ∀ (a b c : List Nat),
    lexLt a b = true → lexLt b c = true → lexLt a c = true := by
  intro a
  induction a with
  | nil =>
    intro b c h1 h2
    cases b with
    | nil => simp [lexLt] at h1
    | cons y ys =>
      cases c with
      | nil => simp [lexLt] at h2
      | cons z zs => simp [lexLt]
  | cons x xs ih =>
    intro b c h1 h2
    cases b with
    | nil => simp [lexLt] at h1
    | cons y ys =>
      cases c with
      | nil => simp [lexLt] at h2
      | cons z zs =>
        simp only [lexLt] at h1 h2 ⊢
        by_cases hxy : x < y
        · by_cases hyz : y < z
          · rw [if_pos (by omega : x < z)]
          · rw [if_neg hyz] at h2
            by_cases hyeqz : y = z
            · rw [if_pos (by omega : x < z)]
            · rw [if_neg hyeqz] at h2
              exact absurd h2 (by simp)
        · rw [if_neg hxy] at h1
          by_cases hxeqy : x = y
          · rw [if_pos hxeqy] at h1
            by_cases hyz : y < z
            · rw [if_pos (by omega : x < z)]
            · rw [if_neg hyz] at h2
              by_cases hyeqz : y = z
              · rw [if_pos hyeqz] at h2
                rw [if_neg (by omega : ¬ x < z), if_pos (by omega : x = z)]
                exact ih ys zs h1 h2
              · rw [if_neg hyeqz] at h2
                exact absurd h2 (by simp)
          · rw [if_neg hxeqy] at h1
            exact absurd h1 (by simp)

theorem lexLt_asymm (a b : List Nat) (h : lexLt a b = true) : lexLt b a = false := by
  by_contra hc
  have hba : lexLt b a = true := by
    cases hh : lexLt b a
    · exact absurd hh hc
    · rfl
  have := lexLt_trans a b a h hba
  rw [lexLt_irrefl] at this
  exact absurd this (by simp)

theorem lexLt_connex : ∀ (a b : List Nat), a ≠ b → lexLt a b = true ∨ lexLt b a = true := by
  intro a
  induction a with
  | nil =>
    intro b hne
    cases b with
    | nil => exact absurd rfl hne
    | cons y ys => left; simp [lexLt]
  | cons x xs ih =>
    intro b hne
    cases b with
    | nil => right; simp [lexLt]
    | cons y ys =>
      by_cases hxy : x < y
      · left; simp [lexLt, hxy]
      · by_cases hyx : y < x
        · right; simp [lexLt, hyx]
        · have hxeqy : x = y := by omega
          subst hxeqy
          have hne2 : xs ≠ ys := fun h => hne (by rw [h])
          rcases ih ys hne2 with h | h
          · left; simp [lexLt, h]
          · right; simp [lexLt, h]

theorem lexLeR_total : IsTotal (List Nat) lexLeR := by
  constructor
  intro x y
  rcases eq_or_ne x y with rfl | hne
  · left; exact lexLt_irrefl x
  · rcases lexLt_connex x y hne with h | h
    · left; exact lexLt_asymm x y h
    · right; exact lexLt_asymm y x h

theorem lexLeR_trans : IsTrans (List Nat) lexLeR := by
  constructor
  intro x y z h1 h2
  unfold lexLeR at h1 h2 ⊢
  by_contra hc
  have hzx : lexLt z x = true := by
    cases hh : lexLt z x
    · exact absurd hh hc
    · rfl
  rcases eq_or_ne y z with rfl | hne
  · rw [hzx] at h1
    simp at h1
  · rcases lexLt_connex y z hne with h | h
    · have hyx : lexLt y x = true := lexLt_trans y z x h hzx
      rw [hyx] at h1
      simp at h1
    · rw [h] at h2
      simp at h2

theorem lexLt_padW : ∀ (k i j : Nat) (s t : List Nat), i < j → j < 10 ^ k →
    lexLt ((padW k i).map (fun d => 48 + d) ++ s)
      ((padW k j).map (fun d => 48 + d) ++ t) = true := by
  intro k
  induction k with
  | zero =>
    intro i j s t hij hj
    simp [pow_zero] at hj
    omega
  | succ k ih =>
    intro i j s t hij hj
    have hq : i / 10 ^ k ≤ j / 10 ^ k := Nat.div_le_div_right (le_of_lt hij)
    simp only [padW, List.map_cons, List.cons_append, lexLt]
    rcases Nat.lt_or_ge (i / 10 ^ k) (j / 10 ^ k) with h | h
    · rw [if_pos (by omega)]
    · have heq : i / 10 ^ k = j / 10 ^ k := le_antisymm hq h
      rw [if_neg (by omega), if_pos (by omega)]
      have hmod : i % 10 ^ k < j % 10 ^ k := by
        have e1 := Nat.div_add_mod i (10 ^ k)
        have e2 := Nat.div_add_mod j (10 ^ k)
        rw [heq] at e1
        omega
      exact ih (i % 10 ^ k) (j % 10 ^ k) s t hmod (Nat.mod_lt _ (by positivity))

/-! ## Claim C8 -/

/-- Claim C8, counterexample: the claim quantifies over all frame index
pairs i < j, but at i = 9999, j = 10000 the Python `04d` format overflows
its four-digit width and `frame_10000.png` sorts lexically before
`frame_9999.png`. -/
theorem frameName_lex_break :
    9999 < 10000 ∧ lexLt (frameName 9999) (frameName 10000) = false := by
  constructor
  · decide
  · have h1 : format04d 9999 = [9, 9, 9, 9] := by
      rw [format04d_eq_padW 9999 (by norm_num)]
      decide
    have h2 : numDigits 10000 = 5 := by
      rw [numDigits, if_neg (by omega)]
      norm_num
      rw [numDigits, if_neg (by omega)]
      norm_num
      rw [numDigits, if_neg (by omega)]
      norm_num
      rw [numDigits, if_neg (by omega)]
      norm_num
      rw [numDigits, if_pos (by omega)]
    have h3 : format04d 10000 = [1, 0, 0, 0, 0] := by
      rw [format04d, decDigits, h2]
      decide
    rw [frameName, frameName, h1, h3]
    decide

/-- Claim C8 (amended): for every pair of frame indices i < j with j below
10000 (so that both names really are zero-padded 4-digit names), the frame
file name of i sorts lexically before the one of j, so the encoder's lexical
sort matches snapshot order. -/
theorem frameName_lex_mono (i j : Nat) (hij : i < j) (hj : j < 10000) :
    lexLt (frameName i) (frameName j) = true := by
  have hi4 : format04d i = padW 4 i := format04d_eq_padW i (lt_trans hij hj)
  have hj4 : format04d j = padW 4 j := format04d_eq_padW j hj
  rw [frameName, frameName, hi4, hj4, List.append_assoc, List.append_assoc,
    lexLt_append_same]
  exact lexLt_padW 4 i j pngExt pngExt hij (lt_of_lt_of_le hj (by norm_num))

/-- Witness for the amended claim C8 at i = 3, j = 7. -/
theorem frameName_lex_mono_witness :
    3 < 7 ∧ 7 < 10000 ∧ lexLt (frameName 3) (frameName 7) = true :=
  ⟨by decide, by decide, frameName_lex_mono 3 7 (by decide) (by decide)⟩

/-! ## Claim C4 -/

theorem le_foldl_max (l : List Nat) : ∀ a : Nat, a ≤ l.foldl max a := by
  induction l with
  | nil => intro a; exact le_refl a
  | cons h t ih => intro a; exact le_trans (le_max_left a h) (ih (max a h))

theorem mem_le_foldl_max (l : List Nat) : ∀ (a x : Nat), x ∈ l → x ≤ l.foldl max a := by
  induction l with
  | nil => intro a x hx; cases hx
  | cons h t ih =>
    intro a x hx
    rcases List.mem_cons.mp hx with rfl | hmem
    · exact le_trans (le_max_right a x) (le_foldl_max t (max a x))
    · exact ih (max a h) x hmem

/-- Claim C4: the run number allocated by `main` is a positive integer,
strictly greater than every existing numeric directory name, and a second
run against the same root (which now also contains the directory of the
first run) allocates exactly the next number, so nothing is overwritten. -/
theorem render_number_fresh (names : List (List Nat)) :
    1 ≤ render_number names
    ∧ (∀ nm ∈ names, name_isdigit nm = true → parseName nm < render_number names)
    ∧ render_number (names ++ [natToName (render_number names)])
        = render_number names + 1 := by
  refine ⟨Nat.le_add_left 1 _, ?_, ?_⟩
  · intro nm hmem hdig
    have hin : parseName nm ∈ (names.filter name_isdigit).map parseName :=
      List.mem_map_of_mem parseName (List.mem_filter.mpr ⟨hmem, hdig⟩)
    have hle := mem_le_foldl_max ((names.filter name_isdigit).map parseName) 0 _ hin
    rw [render_number]
    omega
  · have hle : List.foldl max 0 ((names.filter name_isdigit).map parseName)
        ≤ render_number names := by
      rw [render_number]
      exact Nat.le_succ _
    conv_lhs => rw [render_number]
    rw [List.filter_append, List.map_append, List.foldl_append]
    simp only [List.filter_cons, natToName_isdigit, if_true, List.filter_nil,
      List.map_cons, List.map_nil, parse_natToName, List.foldl_cons, List.foldl_nil]
    rw [Nat.max_eq_right hle]

/-- Witness for claim C4: a root holding one numeric directory named "3". -/
theorem render_number_fresh_witness :
    name_isdigit (natToName 3) = true
    ∧ parseName (natToName 3) < render_number [natToName 3] :=
  ⟨natToName_isdigit 3,
    (render_number_fresh [natToName 3]).2.1 (natToName 3)
      (List.mem_singleton.mpr rfl) (natToName_isdigit 3)⟩

/-! ## Claim C6 -/

theorem encode_foldl {F : Type} (readable : FrameName → Option F) :
    ∀ (l : List FrameName) (acc : List F),
      l.foldl
        (fun out f =>
          match readable f with
          | none => out
          | some fr => out ++ [fr]) acc
        = acc ++ l.filterMap readable := by
  intro l
  induction l with
  | nil => intro acc; simp
  | cons h t ih =>
    intro acc
    cases hr : readable h <;> simp [List.filterMap_cons, hr, ih]

theorem filterMap_length_eq_count {F : Type} (r : FrameName → Option F) (l : List FrameName) :
    (l.filterMap r).length = (l.filter (fun f => (r f).isSome)).length := by
  induction l with
  | nil => rfl
  | cons h t ih =>
    cases hf : r h <;> simp [List.filterMap_cons, hf, List.filter_cons, ih]

/-- Claim C6: the encoder iterates the `.png` files of the directory in
lexical order and writes exactly the readable ones in that order; an
unreadable file is skipped without aborting, so the video's frame sequence
is the readable files in sorted order and its frame count equals the number
of readable `.png` files. -/
theorem encodeVideo_spec {F : Type} (dirList : List FrameName)
    (readable : FrameName → Option F) :
    encodeVideo dirList readable
        = (pySorted (dirList.filter (fun f => pngExt.isSuffixOf f))).filterMap readable
    ∧ (encodeVideo dirList readable).length
        = ((dirList.filter (fun f => pngExt.isSuffixOf f)).filter
            (fun f => (readable f).isSome)).length
    ∧ List.Sorted lexLeR (pySorted (dirList.filter (fun f => pngExt.isSuffixOf f))) := by
  have heq : encodeVideo dirList readable
      = (pySorted (dirList.filter (fun f => pngExt.isSuffixOf f))).filterMap readable := by
    rw [encodeVideo]
    simpa using encode_foldl readable (pySorted (dirList.filter (fun f => pngExt.isSuffixOf f))) []
  refine ⟨heq, ?_, ?_⟩
  · rw [heq, filterMap_length_eq_count]
    exact ((List.perm_insertionSort lexLeR _).filter _).length_eq
  · haveI := lexLeR_total
    haveI := lexLeR_trans
    exact List.sorted_insertionSort lexLeR _

/-! ## Shared facts about the circular mask and the rendered frames -/

theorem maskRadius_eq (zoom : ℚ) (res : Nat) (hz : zoom ≠ 0) :
    maskRadius zoom res = (res : ℚ) / 2 := by
  rw [maskRadius, gridRadius]
  field_simp

/-- On the 4x4 test grid, the corner cell (0, 0) lies outside the mask. -/
theorem testMask_outside :
    circularMask testSettings.ZOOM_FACTOR testSettings.RESOLUTION 0 0 = false := by
  rw [circularMask, decide_eq_false_iff_not,
    maskRadius_eq testSettings.ZOOM_FACTOR testSettings.RESOLUTION (by norm_num [testSettings])]
  norm_num [distSq, testSettings]

/-- The first components of the rendered frame list are exactly the frame
names of the indices 0, ..., length - 1. -/
theorem renderFrames_map_fst (mask : Nat → Nat → Bool) (snaps : List (ℚ × SnapshotData)) :
    (renderFrames mask snaps).map Prod.fst = (List.range snaps.length).map frameName := by
  apply List.ext_getElem
  · simp [renderFrames]
  · intro n h1 h2
    simp [renderFrames]

/-! ## Claim C1 -/

/-- Claim C1: if any snapshot of a mode contains a NaN or Inf value,
`process_mode` logs the diagnostics of the first offending snapshot
(`print_debug_info` receives exactly the first snapshot on which
`check_for_invalid_values` fires) and returns early: no frame file and no
video file is produced, and no exception escapes (the ValueError is caught
by the handler). -/
theorem process_mode_aborts_on_invalid {F : Type} (mode : Mode) (s : Settings)
    (noise : FieldData)
    (solver : FieldData × FieldData → SolveArgs → Except SolveError (List (ℚ × SnapshotData)))
    (readable : FrameName → Option F) (snaps : List (ℚ × SnapshotData))
    (hz : s.ZOOM_FACTOR ≠ 0) (ha : mode.a ≠ 0)
    (hs : solver (initial_state mode s noise)
        { t_range := s.T_MAX, dt := s.DT, interval := 1 } = Except.ok snaps)
    (hbad : snaps.any (fun q => check_for_invalid_values q.2) = true) :
    (process_mode mode s noise solver readable).frames = []
    ∧ (process_mode mode s noise solver readable).video = none
    ∧ (process_mode mode s noise solver readable).raised = none
    ∧ ∃ p, snaps.find? (fun q => check_for_invalid_values q.2) = some p
        ∧ (process_mode mode s noise solver readable).debugLogged = some p
        ∧ check_for_invalid_values p.2 = true := by
  obtain ⟨p, hp⟩ : ∃ p, snaps.find? (fun q => check_for_invalid_values q.2) = some p := by
    rw [List.any_eq_true] at hbad
    obtain ⟨x, hx, hpx⟩ := hbad
    exact Option.isSome_iff_exists.mp (List.find?_isSome.mpr ⟨x, hx, hpx⟩)
  rw [process_mode, if_neg hz, if_neg ha]
  simp only [hs, hp]
  refine ⟨trivial, trivial, trivial, p, rfl, rfl, ?_⟩
  simpa using List.find?_some hp

/-- Witness for claim C1: a run whose single snapshot contains a NaN. -/
theorem process_mode_aborts_on_invalid_witness :
    testSettings.ZOOM_FACTOR ≠ 0 ∧ testMode.a ≠ 0
    ∧ nanSolver (initial_state testMode testSettings zeroNoise)
        { t_range := testSettings.T_MAX, dt := testSettings.DT, interval := 1 }
        = Except.ok [(0, nanSnap)]
    ∧ [((0 : ℚ), nanSnap)].any (fun q => check_for_invalid_values q.2) = true
    ∧ ((process_mode testMode testSettings zeroNoise nanSolver noneReadable).frames = []
        ∧ (process_mode testMode testSettings zeroNoise nanSolver noneReadable).video = none
        ∧ (process_mode testMode testSettings zeroNoise nanSolver noneReadable).raised = none
        ∧ ∃ p, [((0 : ℚ), nanSnap)].find? (fun q => check_for_invalid_values q.2) = some p
            ∧ (process_mode testMode testSettings zeroNoise nanSolver
                noneReadable).debugLogged = some p
            ∧ check_for_invalid_values p.2 = true) :=
  ⟨by decide, by decide, rfl, by decide,
    process_mode_aborts_on_invalid testMode testSettings zeroNoise nanSolver noneReadable
      [(0, nanSnap)] (by decide) (by decide) rfl (by decide)⟩

/-! ## Claim C2 -/

/-- Claim C2: with `fixed_boundary = true`, immediately after initialization
every cell outside the circular mask holds exactly zero in both fields. -/
theorem initial_state_zero_outside_mask (mode : Mode) (s : Settings) (noise : FieldData)
    (i j : Nat) (ha : mode.a ≠ 0) (hfb : s.FIXED_BOUNDARY = true)
    (hm : circularMask s.ZOOM_FACTOR s.RESOLUTION i j = false) :
    (initial_state mode s noise).1 i j = 0 ∧ (initial_state mode s noise).2 i j = 0 := by
  rw [initial_state]
  simp [applyBoundary, hfb, hm]

/-- Witness for claim C2: cell (0, 0) lies outside the mask on a 4x4 grid. -/
theorem initial_state_zero_outside_mask_witness :
    testMode.a ≠ 0 ∧ testSettings.FIXED_BOUNDARY = true
    ∧ circularMask testSettings.ZOOM_FACTOR testSettings.RESOLUTION 0 0 = false
    ∧ ((initial_state testMode testSettings zeroNoise).1 0 0 = 0
        ∧ (initial_state testMode testSettings zeroNoise).2 0 0 = 0) :=
  ⟨by decide, rfl, testMask_outside,
    initial_state_zero_outside_mask testMode testSettings zeroNoise 0 0
      (by decide) rfl testMask_outside⟩

/-! ## Claim C3 -/

/-- Claim C3: when the solve completes and every snapshot is finite,
`process_mode` writes exactly one frame file per snapshot, named by
consecutive indices 0, 1, ... in snapshot order — no index dropped, none
duplicated. -/
theorem process_mode_frames_complete {F : Type} (mode : Mode) (s : Settings)
    (noise : FieldData)
    (solver : FieldData × FieldData → SolveArgs → Except SolveError (List (ℚ × SnapshotData)))
    (readable : FrameName → Option F) (snaps : List (ℚ × SnapshotData))
    (hz : s.ZOOM_FACTOR ≠ 0) (ha : mode.a ≠ 0)
    (hs : solver (initial_state mode s noise)
        { t_range := s.T_MAX, dt := s.DT, interval := 1 } = Except.ok snaps)
    (hok : snaps.find? (fun q => check_for_invalid_values q.2) = none) :
    ((process_mode mode s noise solver readable).frames).map Prod.fst
        = (List.range snaps.length).map frameName
    ∧ (process_mode mode s noise solver readable).frames.length = snaps.length := by
  have hframes : (process_mode mode s noise solver readable).frames
      = renderFrames (circularMask s.ZOOM_FACTOR s.RESOLUTION) snaps := by
    rw [process_mode, if_neg hz, if_neg ha]
    simp only [hs, hok]
    cases hr : readable (frameName 0) <;> simp
  rw [hframes]
  exact ⟨renderFrames_map_fst (circularMask s.ZOOM_FACTOR s.RESOLUTION) snaps,
    by simp [renderFrames]⟩

/-- Witness for claim C3: one finite snapshot yields exactly the frame file
`frame_0000.png`. -/
theorem process_mode_frames_complete_witness :
    testSettings.ZOOM_FACTOR ≠ 0 ∧ testMode.a ≠ 0
    ∧ okSolver (initial_state testMode testSettings zeroNoise)
        { t_range := testSettings.T_MAX, dt := testSettings.DT, interval := 1 }
        = Except.ok [(0, finSnap)]
    ∧ [((0 : ℚ), finSnap)].find? (fun q => check_for_invalid_values q.2) = none
    ∧ (((process_mode testMode testSettings zeroNoise okSolver allReadable).frames).map
          Prod.fst = (List.range [((0 : ℚ), finSnap)].length).map frameName
        ∧ (process_mode testMode testSettings zeroNoise okSolver allReadable).frames.length
          = [((0 : ℚ), finSnap)].length) :=
  ⟨by decide, by decide, rfl, by decide,
    process_mode_frames_complete testMode testSettings zeroNoise okSolver allReadable
      [(0, finSnap)] (by decide) (by decide) rfl (by decide)⟩

/-! ## Claim C5 -/

/-- Claim C5: when the video-encoding stage is reached but
`frame_0000.png` cannot be read back (in particular when the solver produced
zero snapshots, so the frame was never written), `process_mode` raises the
"First frame not found" ValueError and produces no video. -/
theorem process_mode_missing_first_frame {F : Type} (mode : Mode) (s : Settings)
    (noise : FieldData)
    (solver : FieldData × FieldData → SolveArgs → Except SolveError (List (ℚ × SnapshotData)))
    (readable : FrameName → Option F) (snaps : List (ℚ × SnapshotData))
    (hz : s.ZOOM_FACTOR ≠ 0) (ha : mode.a ≠ 0)
    (hs : solver (initial_state mode s noise)
        { t_range := s.T_MAX, dt := s.DT, interval := 1 } = Except.ok snaps)
    (hok : snaps.find? (fun q => check_for_invalid_values q.2) = none)
    (hread : readable (frameName 0) = none) :
    (process_mode mode s noise solver readable).raised = some PyError.firstFrameNotFound
    ∧ (process_mode mode s noise solver readable).video = none := by
  rw [process_mode, if_neg hz, if_neg ha]
  simp only [hs, hok, hread]
  exact ⟨trivial, trivial⟩

/-- Witness for claim C5: zero snapshots, nothing readable on disk. -/
theorem process_mode_missing_first_frame_witness :
    testSettings.ZOOM_FACTOR ≠ 0 ∧ testMode.a ≠ 0
    ∧ emptySolver (initial_state testMode testSettings zeroNoise)
        { t_range := testSettings.T_MAX, dt := testSettings.DT, interval := 1 }
        = Except.ok []
    ∧ ([] : List (ℚ × SnapshotData)).find? (fun q => check_for_invalid_values q.2) = none
    ∧ noneReadable (frameName 0) = none
    ∧ ((process_mode testMode testSettings zeroNoise emptySolver noneReadable).raised
          = some PyError.firstFrameNotFound
        ∧ (process_mode testMode testSettings zeroNoise emptySolver noneReadable).video
          = none) :=
  ⟨by decide, by decide, rfl, rfl, rfl,
    process_mode_missing_first_frame testMode testSettings zeroNoise emptySolver noneReadable
      [] (by decide) (by decide) rfl rfl rfl⟩

/-! ## Claim C7 -/

/-- Claim C7: the time step handed to `eq.solve` is the configured `dt`
divided by 100: `main` computes `DT = dt / 100` and `process_mode` passes
exactly that value (whenever the solver is reached at all). -/
theorem solve_dt_is_dt_div_100 {F : Type} (r : RawSettings) (mode : Mode)
    (noise : FieldData)
    (solver : FieldData × FieldData → SolveArgs → Except SolveError (List (ℚ × SnapshotData)))
    (readable : FrameName → Option F)
    (ha : mode.a ≠ 0) (hz : r.zoom_factor ≠ 0) :
    (main_settings r).DT = r.dt / 100
    ∧ (process_mode mode (main_settings r) noise solver readable).solveArgs
        = some { t_range := r.t_max, dt := r.dt / 100, interval := 1 } := by
  refine ⟨rfl, ?_⟩
  rw [process_mode]
  rw [if_neg (show ¬(main_settings r).ZOOM_FACTOR = 0 from hz), if_neg ha]
  cases solver (initial_state mode (main_settings r) noise)
      { t_range := (main_settings r).T_MAX, dt := (main_settings r).DT, interval := 1 } with
  | error e => rfl
  | ok snaps =>
    cases hfind : snaps.find? (fun q => check_for_invalid_values q.2) with
    | some p => simp [hfind, main_settings]
    | none =>
      cases hr : readable (frameName 0) with
      | none => simp [hfind, hr, main_settings]
      | some fr => simp [hfind, hr, main_settings]

/-- Witness for claim C7 at a raw settings document with dt = 1. -/
theorem solve_dt_is_dt_div_100_witness :
    testMode.a ≠ 0 ∧ testRaw.zoom_factor ≠ 0
    ∧ ((main_settings testRaw).DT = testRaw.dt / 100
        ∧ (process_mode testMode (main_settings testRaw) zeroNoise okSolver
            allReadable).solveArgs
          = some { t_range := testRaw.t_max, dt := testRaw.dt / 100, interval := 1 }) :=
  ⟨by decide, by decide,
    solve_dt_is_dt_div_100 testRaw testMode zeroNoise okSolver allReadable
      (by decide) (by decide)⟩

/-! ## Claim C9 -/

/-- Claim C9: the zoom-derived radius cancels out of the mask's defining
expression: the threshold equals RESOLUTION / 2, so the mask is the set of
cells at pixel distance at most RESOLUTION / 2 from the center,
independently of the zoom factor; and the rendered frames are the
mask-filtered snapshots whatever FIXED_BOUNDARY is (the settings here are
arbitrary, in particular periodic ones). -/
theorem circular_mask_zoom_independent {F : Type} (mode : Mode) (s : Settings)
    (noise : FieldData)
    (solver : FieldData × FieldData → SolveArgs → Except SolveError (List (ℚ × SnapshotData)))
    (readable : FrameName → Option F) (snaps : List (ℚ × SnapshotData)) (zoom2 : ℚ)
    (hz : s.ZOOM_FACTOR ≠ 0) (hz2 : zoom2 ≠ 0) (ha : mode.a ≠ 0)
    (hs : solver (initial_state mode s noise)
        { t_range := s.T_MAX, dt := s.DT, interval := 1 } = Except.ok snaps)
    (hok : snaps.find? (fun q => check_for_invalid_values q.2) = none) :
    maskRadius s.ZOOM_FACTOR s.RESOLUTION = (s.RESOLUTION : ℚ) / 2
    ∧ (∀ i j, circularMask s.ZOOM_FACTOR s.RESOLUTION i j
        = circularMask zoom2 s.RESOLUTION i j)
    ∧ (process_mode mode s noise solver readable).frames
        = renderFrames (circularMask s.ZOOM_FACTOR s.RESOLUTION) snaps := by
  refine ⟨maskRadius_eq s.ZOOM_FACTOR s.RESOLUTION hz, ?_, ?_⟩
  · intro i j
    rw [circularMask, circularMask, maskRadius_eq s.ZOOM_FACTOR s.RESOLUTION hz,
      maskRadius_eq zoom2 s.RESOLUTION hz2]
  · rw [process_mode, if_neg hz, if_neg ha]
    simp only [hs, hok]
    cases hr : readable (frameName 0) <;> simp

/-- Witness for claim C9 on a periodic (fixed_boundary = false) run with
zoom factor 2, compared against zoom factor 3. -/
theorem circular_mask_zoom_independent_witness :
    periodicSettings.ZOOM_FACTOR ≠ 0 ∧ (3 : ℚ) ≠ 0 ∧ testMode.a ≠ 0
    ∧ okSolver (initial_state testMode periodicSettings zeroNoise)
        { t_range := periodicSettings.T_MAX, dt := periodicSettings.DT, interval := 1 }
        = Except.ok [(0, finSnap)]
    ∧ [((0 : ℚ), finSnap)].find? (fun q => check_for_invalid_values q.2) = none
    ∧ (maskRadius periodicSettings.ZOOM_FACTOR periodicSettings.RESOLUTION
          = (periodicSettings.RESOLUTION : ℚ) / 2
        ∧ (∀ i j, circularMask periodicSettings.ZOOM_FACTOR periodicSettings.RESOLUTION i j
            = circularMask 3 periodicSettings.RESOLUTION i j)
        ∧ (process_mode testMode periodicSettings zeroNoise okSolver allReadable).frames
          = renderFrames
              (circularMask periodicSettings.ZOOM_FACTOR periodicSettings.RESOLUTION)
              [(0, finSnap)]) :=
  ⟨by decide, by decide, by decide, rfl, by decide,
    circular_mask_zoom_independent testMode periodicSettings zeroNoise okSolver allReadable
      [(0, finSnap)] 3 (by decide) (by decide) (by decide) rfl (by decide)⟩

/-! ## Claim C10 -/

/-- Claim C10: `process_mode` requires a nonzero reaction parameter `a`: for
a mode with `a = 0` the initialization raises a ZeroDivisionError (the
unguarded `b / a` of the v field) and the solver is never invoked — no
frame, no video. -/
theorem process_mode_zero_a_division_error {F : Type} (mode : Mode) (s : Settings)
    (noise : FieldData)
    (solver : FieldData × FieldData → SolveArgs → Except SolveError (List (ℚ × SnapshotData)))
    (readable : FrameName → Option F)
    (ha : mode.a = 0) :
    (process_mode mode s noise solver readable).raised = some PyError.zeroDivision
    ∧ (process_mode mode s noise solver readable).solveArgs = none
    ∧ (process_mode mode s noise solver readable).frames = []
    ∧ (process_mode mode s noise solver readable).video = none := by
  by_cases hz : s.ZOOM_FACTOR = 0
  · rw [process_mode, if_pos hz]
    exact ⟨rfl, rfl, rfl, rfl⟩
  · rw [process_mode, if_neg hz, if_pos ha]
    exact ⟨rfl, rfl, rfl, rfl⟩

/-- Witness for claim C10: a mode with a = 0. -/
theorem process_mode_zero_a_division_error_witness :
    zeroAMode.a = 0
    ∧ ((process_mode zeroAMode testSettings zeroNoise okSolver allReadable).raised
          = some PyError.zeroDivision
        ∧ (process_mode zeroAMode testSettings zeroNoise okSolver allReadable).solveArgs
          = none
        ∧ (process_mode zeroAMode testSettings zeroNoise okSolver allReadable).frames = []
        ∧ (process_mode zeroAMode testSettings zeroNoise okSolver allReadable).video
          = none) :=
  ⟨by decide,
    process_mode_zero_a_division_error zeroAMode testSettings zeroNoise okSolver allReadable
      (by decide)⟩

end Brusselator
